import Mathlib

/-!
Verification development for the `RichMediaPopup` focus-mode popup component
(src/src/components/customRules/RichMediaPopup.tsx).

The component holds four pieces of state (`isOpen`, `notificationData`,
`isImageLoaded`, `lastShownAppId`), reacts to two incoming signals
(`show-focus-popup`, `notification-dismissed`), emits two outgoing signals
(`focus-popup-displayed`, `notification-dismissed`), schedules an 8000 ms
auto-dismiss timer on every shown popup, and renders a dialog whose body text
and motivational quote are derived by JavaScript string operations.

The embedding below models the JavaScript semantics the handlers rely on:
string truthiness (`""` and `null`/`undefined` are falsy), `String.replace`
with a string pattern (first occurrence only, with ECMA-262 GetSubstitution
applied to the replacement), `String.trim` over the full ECMA-262 whitespace
and line-terminator set, and the lazy regular-expression capture
`focus-mode-(.*?)-\d+` used for deduplication.
-/

namespace RichMediaPopup

/-! ### JavaScript string primitives -/

/-- JS truthiness of a `string | null | undefined` value: `null`, `undefined`
and the empty string are falsy. -/
def truthy : Option String → Bool
  | some s => !(s = "")
  | none => false

/-- JS `a || b` on `string | undefined` values: returns `b` when `a` is
absent or empty (falsy). Used for `customImage || mediaContent`. -/
def jsOrString : Option String → Option String → Option String
  | some a, b => if a = "" then b else some a
  | none, b => b

/-- JS `a || d` with a string default: `d` when `a` is absent or empty.
Used for `notificationData.appName || 'This app'`. -/
def jsOrDefault : Option String → String → String
  | some a, d => if a = "" then d else a
  | none, d => d

/-- Does `pat` occur as a prefix of `s`? (on character lists) -/
def listStartsWith : List Char → List Char → Bool
  | [], _ => true
  | _ :: _, [] => false
  | p :: ps, c :: cs => p = c && listStartsWith ps cs

/-- Index of the first occurrence of `pat` in the list, scanning left to
right (the match position used by JS `String.replace` with a string
pattern). -/
def findFirstAux (pat : List Char) : List Char → Option Nat
  | [] => if pat = [] then some 0 else none
  | c :: cs =>
    if listStartsWith pat (c :: cs) then some 0
    else (findFirstAux pat cs).map (· + 1)

/-- ECMA-262 GetSubstitution for a string-pattern replace (no capture
groups): in the replacement, `$$` yields `$`, `$&` the matched substring,
`$` followed by `\x60` (backquote) the portion before the match, `$` followed
by `\x27` (quote) the portion after it; any other `$` sequence is literal. -/
def expandReplacement (matched before after : List Char) :
    List Char → List Char
  | [] => []
  | '$' :: '$' :: rest => '$' :: expandReplacement matched before after rest
  | '$' :: '&' :: rest => matched ++ expandReplacement matched before after rest
  | '$' :: '\x60' :: rest => before ++ expandReplacement matched before after rest
  | '$' :: '\x27' :: rest => after ++ expandReplacement matched before after rest
  | c :: rest => c :: expandReplacement matched before after rest

/-- JS `s.replace(pat, repl)` with a plain string pattern: only the first
occurrence is replaced, and the replacement string goes through
GetSubstitution (`$$`, `$&`, dollar-backquote, dollar-quote); with a string
pattern the matched substring is `pat` itself. If `pat` does not occur, `s`
is unchanged. -/
def jsReplaceFirst (s pat repl : String) : String :=
  match findFirstAux pat.toList s.toList with
  | none => s
  | some i =>
    ⟨s.toList.take i ++
      expandReplacement pat.toList (s.toList.take i)
        (s.toList.drop (i + pat.toList.length)) repl.toList ++
      s.toList.drop (i + pat.toList.length)⟩

/-- The spec claim's literal reading of "`body` with `{app}` replaced by `appName`": splice the replacement verbatim in place of the first
occurrence, with no GetSubstitution. Stated from the claim's words, for
comparison with the program's `jsReplaceFirst`. -/
def spliceFirst (s pat repl : String) : String :=
  match findFirstAux pat.toList s.toList with
  | none => s
  | some i =>
    ⟨s.toList.take i ++ repl.toList ++
      s.toList.drop (i + pat.toList.length)⟩

/-- Whitespace stripped by JS `String.trim`: ECMA-262 WhiteSpace (TAB, VT,
FF, SP, NBSP, ZWNBSP and the Unicode Zs space separators) and the line
terminators LF, CR, LS, PS. -/
def isJsSpace (c : Char) : Bool :=
  c = ' ' || c = '\t' || c = '\n' || c = '\r' || c = '\x0b' || c = '\x0c' ||
  c = '\u00a0' || c = '\ufeff' || c = '\u1680' ||
  ('\u2000' ≤ c && c ≤ '\u200a') ||
  c = '\u202f' || c = '\u205f' || c = '\u3000' ||
  c = '\u2028' || c = '\u2029'

/-- JS `s.trim()`: strip leading and trailing whitespace. -/
def jsTrim (s : String) : String :=
  ⟨((s.toList.dropWhile isJsSpace).reverse.dropWhile isJsSpace).reverse⟩

/-! ### The regular expression `focus-mode-(.*?)-\d+`

`notificationId.match(/focus-mode-(.*?)-\d+/)` finds the leftmost position at
which the pattern matches; the lazy group `(.*?)` takes the shortest run of
non-newline characters such that a `-` followed by at least one digit
(`\d = [0-9]`) follows. -/

/-- JS `\d`: exactly the ASCII digits. -/
def isJsDigit (c : Char) : Bool := '0' ≤ c && c ≤ '9'

/-- JS `.` (without the `s` flag): any character except line terminators. -/
def isDotChar (c : Char) : Bool :=
  !(c = '\n' || c = '\r' || c = '\u2028' || c = '\u2029')

/-- Does the list start with an ASCII digit? (`\d+` needs at least one) -/
def digitStarts : List Char → Bool
  | [] => false
  | c :: _ => isJsDigit c

/-- Lazy expansion of the capture group: starting from the shortest prefix,
accept as soon as the remainder starts with `-` followed by a digit;
otherwise grow the group by one `.`-matchable character. `acc` holds the
group read so far, reversed. -/
def lazyGroupAux : List Char → List Char → Option (List Char)
  | _, [] => none
  | acc, c :: cs =>
    if c = '-' && digitStarts cs then some acc.reverse
    else if isDotChar c then lazyGroupAux (c :: acc) cs
    else none

/-- Consume the literal `pat` from the front of the input, or fail. -/
def dropLiteral : List Char → List Char → Option (List Char)
  | [], s => some s
  | _ :: _, [] => none
  | p :: ps, c :: cs => if p = c then dropLiteral ps cs else none

/-- Scan start positions left to right; at each, try the literal
`focus-mode-` then the lazy group. -/
def focusCaptureAux : List Char → Option (List Char)
  | [] => none
  | c :: cs =>
    match dropLiteral ("focus-mode-".toList) (c :: cs) with
    | some rest =>
      match lazyGroupAux [] rest with
      | some g => some g
      | none => focusCaptureAux cs
    | none => focusCaptureAux cs

/-- The capture group of `notificationId.match(/focus-mode-(.*?)-\d+/)`:
`some appId` when the pattern matches, `none` otherwise (the handler's
`currentAppId`, with JS `null` as `none`). -/
def focusModeAppId (nid : String) : Option String :=
  (focusCaptureAux nid.toList).map (fun l => ⟨l⟩)

/-! ### Data model -/

/-- The record stored in the `notificationData` state variable. -/
structure NotificationData where
  title : String
  body : String
  notificationId : String
  appName : Option String
  mediaContent : Option String
deriving DecidableEq, Repr

/-- The payload of an incoming `show-focus-popup` signal. -/
structure ShowDetail where
  title : String
  body : String
  notificationId : String
  appName : Option String
  mediaType : Option String
  mediaContent : Option String
deriving DecidableEq, Repr

/-- The component's four state variables. -/
structure PopupState where
  isOpen : Bool
  notificationData : Option NotificationData
  isImageLoaded : Bool
  lastShownAppId : Option String
deriving DecidableEq, Repr

/-- The values read from the focus-mode context. -/
structure FocusContext where
  customImage : Option String
  customText : Option String
deriving DecidableEq, Repr

/-- Signals emitted by the component via `window.dispatchEvent`. -/
inductive Emitted where
  | focusPopupDisplayed (notificationId : String) (timestamp : Nat)
  | notificationDismissed (id : String)
deriving DecidableEq, Repr

/-- The component's state at mount time: closed, no data, no last app. -/
def initialState : PopupState :=
  { isOpen := false, notificationData := none, isImageLoaded := false,
    lastShownAppId := none }

/-! ### Event handlers -/

/-- The notification record assembled by `handleShowFocusPopup`:
`finalMediaContent = customImage || event.detail.mediaContent`. -/
def mkNotificationData (ctx : FocusContext) (detail : ShowDetail) :
    NotificationData :=
  { title := detail.title
    body := detail.body
    notificationId := detail.notificationId
    appName := detail.appName
    mediaContent := jsOrString ctx.customImage detail.mediaContent }

/-- `handleShowFocusPopup`: extract `currentAppId` from the notification id;
if it is truthy and equals `lastShownAppId`, return with no state change and
no emission; otherwise update `lastShownAppId` (only when `currentAppId` is
truthy), store the assembled notification data, open the popup, reset the
image-loaded flag, schedule an 8000 ms auto-dismiss timer, and emit
`focus-popup-displayed`. Returns (new state, emitted signals, fire times of
newly scheduled timers). -/
def handleShowFocusPopup (ctx : FocusContext) (detail : ShowDetail)
    (now : Nat) (s : PopupState) : PopupState × List Emitted × List Nat :=
  if truthy (focusModeAppId detail.notificationId) ∧
      focusModeAppId detail.notificationId = s.lastShownAppId then
    (s, [], [])
  else
    ({ isOpen := true
       notificationData := some (mkNotificationData ctx detail)
       isImageLoaded := false
       lastShownAppId :=
         if truthy (focusModeAppId detail.notificationId) then
           focusModeAppId detail.notificationId
         else s.lastShownAppId },
     [Emitted.focusPopupDisplayed detail.notificationId now],
     [now + 8000])

/-- `handleNotificationDismissed`: if `notificationData` is present and the
incoming id equals its `notificationId`, close the popup and clear
`lastShownAppId`; otherwise do nothing. Emits nothing. -/
def handleNotificationDismissed (id : String) (s : PopupState) : PopupState :=
  match s.notificationData with
  | some nd =>
    if id = nd.notificationId then
      { s with isOpen := false, lastShownAppId := none }
    else s
  | none => s

/-- `handleDismiss` (close icon or Dismiss button): close the popup, clear
`lastShownAppId`, and — when notification data is present — emit
`notification-dismissed` with the shown `notificationId`. -/
def handleDismiss (s : PopupState) : PopupState × List Emitted :=
  match s.notificationData with
  | some nd =>
    ({ s with isOpen := false, lastShownAppId := none },
     [Emitted.notificationDismissed nd.notificationId])
  | none => ({ s with isOpen := false, lastShownAppId := none }, [])

/-- The auto-dismiss timer callback `() => setIsOpen(false)`: closes the
popup and nothing else; emits nothing. -/
def autoDismissFire (s : PopupState) : PopupState × List Emitted :=
  ({ s with isOpen := false }, [])

/-- `handleImageLoad`: mark the image as loaded. -/
def handleImageLoad (s : PopupState) : PopupState :=
  { s with isImageLoaded := true }

/-- `handleImageError`: load failure is treated like success for
display-readiness. -/
def handleImageError (s : PopupState) : PopupState :=
  { s with isImageLoaded := true }

/-! ### Renderer -/

/-- The fixed system message compared against `customText`. -/
def systemMessage : String :=
  "You're outside your focus zone. {app} is not in your whitelist."

/-- `displayImage = customImage || notificationData.mediaContent` at render
time. -/
def displayImage (ctx : FocusContext) (nd : NotificationData) : Option String :=
  jsOrString ctx.customImage nd.mediaContent

/-- `bodyText = notificationData.body.replace('{app}',
notificationData.appName || 'This app')` — first occurrence only. -/
def bodyText (nd : NotificationData) : String :=
  jsReplaceFirst nd.body "{app}" (jsOrDefault nd.appName "This app")

/-- `motivationalText = customText && customText !== systemMessage ?
customText.replace(systemMessage, '').trim() : ''`. -/
def motivationalText (customText : Option String) : String :=
  match customText with
  | some t =>
    if t ≠ "" ∧ t ≠ systemMessage then
      jsTrim (jsReplaceFirst t systemMessage "")
    else ""
  | none => ""

/-- The visible content of the rendered dialog: resolved image source (if
any), title, substituted body text, and the motivational quote block (if
shown). -/
structure RenderedDialog where
  image : Option String
  title : String
  body : String
  quote : Option String
deriving DecidableEq, Repr

/-- The renderer: nothing when `notificationData` is absent (`if
(!notificationData) return null`), nothing when the popup is closed (the
dialog is gated by `isOpen`), otherwise the dialog contents. The quote block
is rendered only when `motivationalText` is truthy (non-empty). -/
def render (ctx : FocusContext) (s : PopupState) : Option RenderedDialog :=
  match s.notificationData with
  | none => none
  | some nd =>
    if s.isOpen then
      some { image := displayImage ctx nd
             title := nd.title
             body := bodyText nd
             quote :=
               if motivationalText ctx.customText = "" then none
               else some (motivationalText ctx.customText) }
    else none

/-! ### System-level transitions

`setTimeout` callbacks are modelled by a list of pending fire times: every
non-suppressed show appends `now + 8000`, nothing ever cancels an entry, and
a timer fire pops the earliest entry and runs the `setIsOpen(false)`
callback. -/

/-- Component state together with the pending auto-dismiss timers (fire
times, in scheduling order). -/
structure SysState where
  popup : PopupState
  pendingTimers : List Nat
deriving DecidableEq, Repr

/-- A `show-focus-popup` signal at system level: run the handler and append
any newly scheduled timer. No existing timer is cancelled. -/
def showStep (ctx : FocusContext) (d : ShowDetail) (now : Nat)
    (sys : SysState) : SysState × List Emitted :=
  match handleShowFocusPopup ctx d now sys.popup with
  | (p, ems, ts) => ({ popup := p, pendingTimers := sys.pendingTimers ++ ts }, ems)

/-- Firing of the earliest pending auto-dismiss timer: run the callback
(`setIsOpen(false)`), remove the timer; no-op when no timer is pending. -/
def fireTimerStep (sys : SysState) : SysState × List Emitted :=
  match sys.pendingTimers with
  | [] => (sys, [])
  | _ :: rest =>
    match autoDismissFire sys.popup with
    | (p, ems) => ({ popup := p, pendingTimers := rest }, ems)

/-- The operations that can reach the component after mount. -/
inductive Op where
  | showSignal (ctx : FocusContext) (detail : ShowDetail) (now : Nat)
  | dismissedSignal (id : String)
  | userDismiss
  | timerFire
  | imageLoad
  | imageError
deriving Repr

/-- One step of the component: dispatch an operation to its handler. -/
def stepOp : Op → SysState → SysState × List Emitted
  | .showSignal ctx d now, sys => showStep ctx d now sys
  | .dismissedSignal id, sys =>
    ({ sys with popup := handleNotificationDismissed id sys.popup }, [])
  | .userDismiss, sys =>
    match handleDismiss sys.popup with
    | (p, ems) => ({ sys with popup := p }, ems)
  | .timerFire, sys => fireTimerStep sys
  | .imageLoad, sys => ({ sys with popup := handleImageLoad sys.popup }, [])
  | .imageError, sys => ({ sys with popup := handleImageError sys.popup }, [])

/-- A reachable state with a closed popup but retained notification data:
show `focus-mode-x-1`, then let the auto-dismiss timer fire. -/
def closedWithDataState : PopupState :=
  (fireTimerStep ((showStep ⟨none, none⟩
    ⟨"T", "{app} blocked", "focus-mode-x-1", some "X", none, none⟩ 0
    ⟨initialState, []⟩).1)).1.popup

/-! ### Helper lemmas on the show handler -/

/-- A non-empty capture group is truthy. -/
theorem truthy_some_of_ne {X : String} (hX : X ≠ "") : truthy (some X) = true := by
  simp [truthy, hX]

/-- The suppressed branch: when the capture group is truthy and equals
`lastShownAppId`, the show handler does nothing. -/
theorem show_suppressed (ctx : FocusContext) (d : ShowDetail) (now : Nat)
    (s : PopupState)
    (h : truthy (focusModeAppId d.notificationId) = true ∧
      focusModeAppId d.notificationId = s.lastShownAppId) :
    handleShowFocusPopup ctx d now s = (s, [], []) := by
  unfold handleShowFocusPopup
  rw [if_pos h]

/-- The non-suppressed branch of the show handler, explicitly. -/
theorem show_not_suppressed (ctx : FocusContext) (d : ShowDetail) (now : Nat)
    (s : PopupState)
    (h : ¬ (truthy (focusModeAppId d.notificationId) = true ∧
      focusModeAppId d.notificationId = s.lastShownAppId)) :
    handleShowFocusPopup ctx d now s =
      ({ isOpen := true
         notificationData := some (mkNotificationData ctx d)
         isImageLoaded := false
         lastShownAppId :=
           if truthy (focusModeAppId d.notificationId) then
             focusModeAppId d.notificationId
           else s.lastShownAppId },
       [Emitted.focusPopupDisplayed d.notificationId now], [now + 8000]) := by
  unfold handleShowFocusPopup
  rw [if_neg h]

/-- Suppression, packaged for a non-empty capture group. -/
theorem show_suppressed_of (ctx : FocusContext) (d : ShowDetail) (now : Nat)
    (s : PopupState) (X : String)
    (h1 : focusModeAppId d.notificationId = some X) (hX : X ≠ "")
    (hl : s.lastShownAppId = some X) :
    handleShowFocusPopup ctx d now s = (s, [], []) :=
  show_suppressed ctx d now s
    ⟨by rw [h1]; exact truthy_some_of_ne hX, by rw [h1, hl]⟩

/-- `showStep`, written with projections (definitional by structure eta). -/
theorem showStep_eq (ctx : FocusContext) (d : ShowDetail) (now : Nat)
    (sys : SysState) :
    showStep ctx d now sys =
      ({ popup := (handleShowFocusPopup ctx d now sys.popup).1
         pendingTimers := sys.pendingTimers ++
           (handleShowFocusPopup ctx d now sys.popup).2.2 },
       (handleShowFocusPopup ctx d now sys.popup).2.1) := rfl

/-- After a show signal whose capture group is a non-empty `X`,
`lastShownAppId` is `X` — whether or not the signal was suppressed. -/
theorem lastShown_after_show_capture (ctx : FocusContext) (d : ShowDetail)
    (now : Nat) (s : PopupState) (X : String)
    (h1 : focusModeAppId d.notificationId = some X) (hX : X ≠ "") :
    (handleShowFocusPopup ctx d now s).1.lastShownAppId = some X := by
  unfold handleShowFocusPopup
  rw [h1]
  have htr : truthy (some X) = true := truthy_some_of_ne hX
  split
  · next hc => exact hc.2.symm
  · next hc => simp [htr]

/-- GetSubstitution is the identity on a replacement without `$`. -/
theorem expandReplacement_no_dollar (m b a : List Char) :
    ∀ l : List Char, ('$' : Char) ∉ l → expandReplacement m b a l = l := by
  intro l
  induction l with
  | nil => intro _; rfl
  | cons c rest ih =>
    intro h
    have hc : c ≠ '$' := fun he => h (he ▸ List.mem_cons_self c rest)
    have h2 : ('$' : Char) ∉ rest := fun hm => h (List.mem_cons_of_mem c hm)
    have step : expandReplacement m b a (c :: rest) =
        c :: expandReplacement m b a rest := by
      rw [expandReplacement.eq_def]
      split <;> simp_all
    rw [step, ih h2]

/-- For a `$`-free replacement, JS replace coincides with the verbatim
splice of the spec's wording. -/
theorem jsReplaceFirst_eq_spliceFirst (s pat repl : String)
    (h : ('$' : Char) ∉ repl.toList) :
    jsReplaceFirst s pat repl = spliceFirst s pat repl := by
  unfold jsReplaceFirst spliceFirst
  cases hf : findFirstAux pat.toList s.toList with
  | none => rfl
  | some i =>
    simp only [hf]
    rw [expandReplacement_no_dollar _ _ _ _ h]

/-! ### Claim theorems -/

/-- C1, counterexample: both `focus-mode--1` and `focus-mode--2` match the
pattern with the same capture group `""`, yet two consecutive show signals
with those ids (from the mount state) leave different states — the second
overwrites `notificationData` — and the second emits `focus-popup-displayed`.
JS truthiness skips both the suppression check and the `lastShownAppId`
update when the captured app id is the empty string. -/
theorem c1_empty_capture_counterexample :
    focusModeAppId "focus-mode--1" = some "" ∧
    focusModeAppId "focus-mode--2" = some "" ∧
    (handleShowFocusPopup ⟨none, none⟩ ⟨"B", "b", "focus-mode--2", none, none, none⟩ 1
        (handleShowFocusPopup ⟨none, none⟩ ⟨"A", "b", "focus-mode--1", none, none, none⟩ 0
          initialState).1).1 ≠
      (handleShowFocusPopup ⟨none, none⟩ ⟨"A", "b", "focus-mode--1", none, none, none⟩ 0
        initialState).1 ∧
    (handleShowFocusPopup ⟨none, none⟩ ⟨"B", "b", "focus-mode--2", none, none, none⟩ 1
        (handleShowFocusPopup ⟨none, none⟩ ⟨"A", "b", "focus-mode--1", none, none, none⟩ 0
          initialState).1).2.1 ≠ [] := by
  decide

/-- C1 (amended): for every state in which `lastShownAppId` equals a
non-empty `X`, a show signal whose capture group is `X` changes no state and
emits nothing; and two consecutive show signals whose capture group is the
same non-empty `X` leave the state after the second equal to the state after
the first. -/
theorem c1_dedup_same_app (ctx1 ctx2 : FocusContext) (d1 d2 : ShowDetail)
    (n1 n2 : Nat) (s : PopupState) (X : String) (hX : X ≠ "")
    (h1 : focusModeAppId d1.notificationId = some X)
    (h2 : focusModeAppId d2.notificationId = some X) :
    (s.lastShownAppId = some X →
      handleShowFocusPopup ctx2 d2 n2 s = (s, [], [])) ∧
    (handleShowFocusPopup ctx2 d2 n2
        (handleShowFocusPopup ctx1 d1 n1 s).1).1 =
      (handleShowFocusPopup ctx1 d1 n1 s).1 := by
  constructor
  · intro hl
    exact show_suppressed_of ctx2 d2 n2 s X h2 hX hl
  · have hL := lastShown_after_show_capture ctx1 d1 n1 s X h1 hX
    rw [show_suppressed_of ctx2 d2 n2 _ X h2 hX hL]

/-- C1 witness: a concrete suppressed second signal for app `twitter`. -/
theorem c1_dedup_same_app_witness :
    handleShowFocusPopup ⟨none, none⟩
        ⟨"T", "B", "focus-mode-twitter-1001", none, none, none⟩ 7
        ⟨true, some ⟨"T", "B", "focus-mode-twitter-1001", none, none⟩, true,
          some "twitter"⟩ =
      (⟨true, some ⟨"T", "B", "focus-mode-twitter-1001", none, none⟩, true,
        some "twitter"⟩, [], []) ∧
    (handleShowFocusPopup ⟨none, none⟩
        ⟨"T", "B", "focus-mode-twitter-1001", none, none, none⟩ 7
        (handleShowFocusPopup ⟨none, none⟩
          ⟨"T", "B", "focus-mode-twitter-1001", none, none, none⟩ 5
          initialState).1).1 =
      (handleShowFocusPopup ⟨none, none⟩
        ⟨"T", "B", "focus-mode-twitter-1001", none, none, none⟩ 5
        initialState).1 :=
  ⟨(c1_dedup_same_app ⟨none, none⟩ ⟨none, none⟩
      ⟨"T", "B", "focus-mode-twitter-1001", none, none, none⟩
      ⟨"T", "B", "focus-mode-twitter-1001", none, none, none⟩ 5 7
      ⟨true, some ⟨"T", "B", "focus-mode-twitter-1001", none, none⟩, true,
        some "twitter"⟩ "twitter"
      (by decide) (by decide) (by decide)).1 (by decide),
   (c1_dedup_same_app ⟨none, none⟩ ⟨none, none⟩
      ⟨"T", "B", "focus-mode-twitter-1001", none, none, none⟩
      ⟨"T", "B", "focus-mode-twitter-1001", none, none, none⟩ 5 7
      initialState "twitter" (by decide) (by decide) (by decide)).2⟩

/-- C2, counterexample: from a reachable state (show `focus-mode-x-1`, auto
dismiss timer fires) the popup is closed, yet the matching
`notification-dismissed` signal still changes state — it clears
`lastShownAppId` — because the handler checks `notificationData`, not
`isOpen`. -/
theorem c2_not_showing_counterexample :
    closedWithDataState.isOpen = false ∧
    closedWithDataState.lastShownAppId = some "x" ∧
    handleNotificationDismissed "focus-mode-x-1" closedWithDataState ≠
      closedWithDataState ∧
    (handleNotificationDismissed "focus-mode-x-1" closedWithDataState).lastShownAppId =
      none := by
  decide

/-- C2 (amended): the dismissed-signal handler closes the popup and clears
`lastShownAppId` exactly when `notificationData` is present and carries the
signalled id — whether or not the popup is currently visible; otherwise it
changes nothing. -/
theorem c2_dismissed_signal (s : PopupState) (id : String) :
    (∀ nd, s.notificationData = some nd → nd.notificationId = id →
      handleNotificationDismissed id s =
        { s with isOpen := false, lastShownAppId := none }) ∧
    ((∀ nd, s.notificationData = some nd → nd.notificationId ≠ id) →
      handleNotificationDismissed id s = s) := by
  constructor
  · intro nd h hid
    simp only [handleNotificationDismissed, h]
    rw [if_pos hid.symm]
  · intro h
    cases hnd : s.notificationData with
    | none => simp [handleNotificationDismissed, hnd]
    | some nd =>
      simp only [handleNotificationDismissed, hnd]
      rw [if_neg (fun he => h nd hnd he.symm)]

/-- C2 witness: a matching id closes and clears; a non-matching id is a
no-op. -/
theorem c2_dismissed_signal_witness :
    handleNotificationDismissed "n1"
        ⟨true, some ⟨"t", "b", "n1", none, none⟩, true, some "x"⟩ =
      ⟨false, some ⟨"t", "b", "n1", none, none⟩, true, none⟩ ∧
    handleNotificationDismissed "zz"
        ⟨true, some ⟨"t", "b", "n1", none, none⟩, true, some "x"⟩ =
      ⟨true, some ⟨"t", "b", "n1", none, none⟩, true, some "x"⟩ :=
  ⟨(c2_dismissed_signal
      ⟨true, some ⟨"t", "b", "n1", none, none⟩, true, some "x"⟩ "n1").1
      ⟨"t", "b", "n1", none, none⟩ rfl rfl,
   (c2_dismissed_signal
      ⟨true, some ⟨"t", "b", "n1", none, none⟩, true, some "x"⟩ "zz").2
      (fun nd h => by
        have : nd = ⟨"t", "b", "n1", none, none⟩ := by
          exact (Option.some.inj h).symm
        rw [this]
        decide)⟩

/-- C8: a show signal whose notification id does not match the pattern is
never suppressed: the popup opens with data assembled from the signal,
`focus-popup-displayed` is emitted, a timer is scheduled, and
`lastShownAppId` is left unchanged. -/
theorem c8_no_match_always_shown (ctx : FocusContext) (d : ShowDetail)
    (now : Nat) (s : PopupState)
    (h : focusModeAppId d.notificationId = none) :
    handleShowFocusPopup ctx d now s =
      ({ isOpen := true, notificationData := some (mkNotificationData ctx d),
         isImageLoaded := false, lastShownAppId := s.lastShownAppId },
       [Emitted.focusPopupDisplayed d.notificationId now], [now + 8000]) := by
  have hnt : truthy (focusModeAppId d.notificationId) = false := by
    rw [h]; rfl
  rw [show_not_suppressed ctx d now s (by simp [hnt])]
  simp [hnt]

/-- C8 witness: the malformed id `hello` always shows a popup. -/
theorem c8_no_match_always_shown_witness :
    focusModeAppId "hello" = none ∧
    handleShowFocusPopup ⟨none, none⟩ ⟨"T", "B", "hello", none, none, none⟩ 3
        ⟨false, none, false, some "w"⟩ =
      ({ isOpen := true,
         notificationData := some (mkNotificationData ⟨none, none⟩
           ⟨"T", "B", "hello", none, none, none⟩),
         isImageLoaded := false, lastShownAppId := some "w" },
       [Emitted.focusPopupDisplayed "hello" 3], [3 + 8000]) :=
  ⟨by decide,
   c8_no_match_always_shown ⟨none, none⟩ ⟨"T", "B", "hello", none, none, none⟩
     3 ⟨false, none, false, some "w"⟩ (by decide)⟩

/-- C4: for a non-suppressed show signal, a present (non-empty)
`customImage` is both stored in `notificationData.mediaContent` and used at
render time, regardless of the signal's `mediaContent`; when `customImage`
is absent, the signal's `mediaContent` is stored and used. -/
theorem c4_custom_image_priority (ctx : FocusContext) (d : ShowDetail)
    (now : Nat) (s : PopupState)
    (hns : ¬ (truthy (focusModeAppId d.notificationId) = true ∧
      focusModeAppId d.notificationId = s.lastShownAppId)) :
    (∀ c, ctx.customImage = some c → c ≠ "" →
      (handleShowFocusPopup ctx d now s).1.notificationData =
        some (mkNotificationData ctx d) ∧
      (mkNotificationData ctx d).mediaContent = some c ∧
      displayImage ctx (mkNotificationData ctx d) = some c) ∧
    (ctx.customImage = none →
      (handleShowFocusPopup ctx d now s).1.notificationData =
        some (mkNotificationData ctx d) ∧
      (mkNotificationData ctx d).mediaContent = d.mediaContent ∧
      displayImage ctx (mkNotificationData ctx d) = d.mediaContent) := by
  constructor
  · intro c hc hcne
    refine ⟨?_, ?_, ?_⟩
    · rw [show_not_suppressed ctx d now s hns]
    · simp [mkNotificationData, jsOrString, hc, hcne]
    · simp [displayImage, jsOrString, hc, hcne]
  · intro hc
    refine ⟨?_, ?_, ?_⟩
    · rw [show_not_suppressed ctx d now s hns]
    · simp [mkNotificationData, jsOrString, hc]
    · simp [displayImage, mkNotificationData, jsOrString, hc]

/-- C4 witness: with context image `img.png` and event media `evt.png`, the
stored and rendered image are both `img.png`. -/
theorem c4_custom_image_priority_witness :
    (handleShowFocusPopup ⟨some "img.png", none⟩
        ⟨"T", "B", "focus-mode-a-1", none, none, some "evt.png"⟩ 0
        initialState).1.notificationData =
      some (mkNotificationData ⟨some "img.png", none⟩
        ⟨"T", "B", "focus-mode-a-1", none, none, some "evt.png"⟩) ∧
    (mkNotificationData ⟨some "img.png", none⟩
        ⟨"T", "B", "focus-mode-a-1", none, none, some "evt.png"⟩).mediaContent =
      some "img.png" ∧
    displayImage ⟨some "img.png", none⟩
        (mkNotificationData ⟨some "img.png", none⟩
          ⟨"T", "B", "focus-mode-a-1", none, none, some "evt.png"⟩) =
      some "img.png" :=
  (c4_custom_image_priority ⟨some "img.png", none⟩
    ⟨"T", "B", "focus-mode-a-1", none, none, some "evt.png"⟩ 0 initialState
    (by decide)).1 "img.png" rfl (by decide)

/-- C6: dismissing a shown popup (close icon or Dismiss button) closes it,
clears `lastShownAppId`, and emits exactly one `notification-dismissed`
signal carrying the shown `notificationId`. -/
theorem c6_user_dismiss (s : PopupState) (nd : NotificationData)
    (hnd : s.notificationData = some nd) (hop : s.isOpen = true) :
    handleDismiss s = ({ s with isOpen := false, lastShownAppId := none },
      [Emitted.notificationDismissed nd.notificationId]) := by
  simp only [handleDismiss, hnd]

/-- C6 witness: dismissing a concrete shown popup. -/
theorem c6_user_dismiss_witness :
    handleDismiss ⟨true, some ⟨"T", "B", "focus-mode-x-3", some "X", none⟩,
        true, some "x"⟩ =
      (⟨false, some ⟨"T", "B", "focus-mode-x-3", some "X", none⟩, true, none⟩,
       [Emitted.notificationDismissed "focus-mode-x-3"]) :=
  c6_user_dismiss
    ⟨true, some ⟨"T", "B", "focus-mode-x-3", some "X", none⟩, true, some "x"⟩
    ⟨"T", "B", "focus-mode-x-3", some "X", none⟩ rfl rfl

/-- C7: when a timer is pending, its firing closes the popup and changes
nothing else — data, dedup id and image flag are untouched, and no signal is
emitted. -/
theorem c7_timer_fire_frame (sys : SysState) (t : Nat) (rest : List Nat)
    (h : sys.pendingTimers = t :: rest) :
    fireTimerStep sys =
      ({ popup := { sys.popup with isOpen := false }, pendingTimers := rest },
       []) ∧
    (fireTimerStep sys).1.popup.notificationData =
      sys.popup.notificationData ∧
    (fireTimerStep sys).1.popup.lastShownAppId = sys.popup.lastShownAppId ∧
    (fireTimerStep sys).1.popup.isImageLoaded = sys.popup.isImageLoaded ∧
    (fireTimerStep sys).2 = [] := by
  refine ⟨?_, ?_, ?_, ?_, ?_⟩ <;>
    simp [fireTimerStep, h, autoDismissFire]

/-- C7 witness: firing the pending timer of a concrete open popup. -/
theorem c7_timer_fire_frame_witness :
    fireTimerStep ⟨⟨true, some ⟨"T", "B", "n", none, none⟩, true, some "a"⟩,
        [8000, 13000]⟩ =
      ({ popup := ⟨false, some ⟨"T", "B", "n", none, none⟩, true, some "a"⟩,
         pendingTimers := [13000] }, []) :=
  (c7_timer_fire_frame
    ⟨⟨true, some ⟨"T", "B", "n", none, none⟩, true, some "a"⟩, [8000, 13000]⟩
    8000 [13000] rfl).1

/-- C9, counterexample: the claim's "body with `{app}` replaced by
`appName`" (verbatim splice, `spliceFirst`) fails twice. With `appName`
present but empty, the code renders the default `This app` — `appName ||
'This app'` treats the empty string as absent. And with `appName` equal to
`$$`, the code renders `$!`, not `$$!` — `String.replace` runs the
replacement through GetSubstitution even for a string pattern. -/
theorem c9_appname_counterexample :
    bodyText ⟨"t", "{app}!", "n", some "", none⟩ = "This app!" ∧
    spliceFirst "{app}!" "{app}" "" = "!" ∧
    bodyText ⟨"t", "{app}!", "n", some "", none⟩ ≠
      spliceFirst "{app}!" "{app}" "" ∧
    bodyText ⟨"t", "{app}!", "n", some "$$", none⟩ = "$!" ∧
    spliceFirst "{app}!" "{app}" "$$" = "$$!" ∧
    bodyText ⟨"t", "{app}!", "n", some "$$", none⟩ ≠
      spliceFirst "{app}!" "{app}" "$$" := by
  decide

/-- C9 (amended): the rendered body is `body` with the first occurrence of
`{app}` replaced — under JS `String.replace` substitution semantics
(`jsReplaceFirst`), in which `$$`, `$&`, dollar-backquote and dollar-quote
in the replacement are expanded — by `appName` when it is present and
non-empty, and by `This app` when `appName` is absent or empty. For a
`$`-free `appName` this is exactly the verbatim splice of the claim's
wording; in particular the Blocked / Twitter scenario renders
`Twitter is not allowed`. -/
theorem c9_body_text (nd : NotificationData) :
    (∀ a, nd.appName = some a → a ≠ "" →
      bodyText nd = jsReplaceFirst nd.body "{app}" a) ∧
    (nd.appName = none ∨ nd.appName = some "" →
      bodyText nd = jsReplaceFirst nd.body "{app}" "This app") ∧
    (∀ a, nd.appName = some a → a ≠ "" → ('$' : Char) ∉ a.toList →
      bodyText nd = spliceFirst nd.body "{app}" a) ∧
    bodyText ⟨"Blocked", "{app} is not allowed", "focus-mode-twitter-1001",
        some "Twitter", none⟩ = "Twitter is not allowed" := by
  refine ⟨?_, ?_, ?_, by decide⟩
  · intro a ha hne
    simp only [bodyText, jsOrDefault, ha]
    rw [if_neg hne]
  · rintro (h | h) <;> simp [bodyText, jsOrDefault, h]
  · intro a ha hne hnd
    simp only [bodyText, jsOrDefault, ha]
    rw [if_neg hne, jsReplaceFirst_eq_spliceFirst _ _ _ hnd]

/-- C9 witness: the Twitter scenario via the general statement, through
both the substitution form and the `$`-free splice form. -/
theorem c9_body_text_witness :
    bodyText ⟨"Blocked", "{app} is not allowed", "focus-mode-twitter-1001",
        some "Twitter", none⟩ =
      jsReplaceFirst "{app} is not allowed" "{app}" "Twitter" ∧
    bodyText ⟨"Blocked", "{app} is not allowed", "focus-mode-twitter-1001",
        some "Twitter", none⟩ =
      spliceFirst "{app} is not allowed" "{app}" "Twitter" :=
  ⟨(c9_body_text ⟨"Blocked", "{app} is not allowed",
      "focus-mode-twitter-1001", some "Twitter", none⟩).1 "Twitter" rfl
      (by decide),
   (c9_body_text ⟨"Blocked", "{app} is not allowed",
      "focus-mode-twitter-1001", some "Twitter", none⟩).2.2.1 "Twitter" rfl
      (by decide) (by decide)⟩

/-- C3: a second, non-suppressed show signal for a different app arriving
within 8000 ms does not cancel the first signal's timer: both timers stay
pending, and firing the earlier one closes the popup while the second
signal's notification data is the one displayed. -/
theorem c3_stale_timer_premature_dismiss (ctx1 ctx2 : FocusContext)
    (d1 d2 : ShowDetail) (t1 t2 : Nat) (p : PopupState) (X1 X2 : String)
    (h1 : focusModeAppId d1.notificationId = some X1)
    (h2 : focusModeAppId d2.notificationId = some X2)
    (hX1 : X1 ≠ "") (hX2 : X2 ≠ "") (hne : X1 ≠ X2)
    (hp : p.lastShownAppId ≠ some X1) (ht : t2 < t1 + 8000) :
    (showStep ctx2 d2 t2
        ((showStep ctx1 d1 t1 ⟨p, []⟩).1)).1.pendingTimers =
      [t1 + 8000, t2 + 8000] ∧
    (showStep ctx2 d2 t2
        ((showStep ctx1 d1 t1 ⟨p, []⟩).1)).1.popup.notificationData =
      some (mkNotificationData ctx2 d2) ∧
    t2 < t1 + 8000 ∧
    (fireTimerStep (showStep ctx2 d2 t2
        ((showStep ctx1 d1 t1 ⟨p, []⟩).1)).1).1.popup.isOpen = false ∧
    (fireTimerStep (showStep ctx2 d2 t2
        ((showStep ctx1 d1 t1 ⟨p, []⟩).1)).1).1.popup.notificationData =
      some (mkNotificationData ctx2 d2) ∧
    (fireTimerStep (showStep ctx2 d2 t2
        ((showStep ctx1 d1 t1 ⟨p, []⟩).1)).1).1.pendingTimers =
      [t2 + 8000] := by
  have hns1 : ¬ (truthy (focusModeAppId d1.notificationId) = true ∧
      focusModeAppId d1.notificationId = p.lastShownAppId) :=
    fun hc => hp (hc.2.symm.trans h1)
  have e1 := show_not_suppressed ctx1 d1 t1 p hns1
  have hL1 := lastShown_after_show_capture ctx1 d1 t1 p X1 h1 hX1
  have hns2 : ¬ (truthy (focusModeAppId d2.notificationId) = true ∧
      focusModeAppId d2.notificationId =
        (handleShowFocusPopup ctx1 d1 t1 p).1.lastShownAppId) := by
    rw [h2, hL1]
    rintro ⟨-, hc⟩
    exact hne (Option.some.inj hc).symm
  have e2 := show_not_suppressed ctx2 d2 t2 _ hns2
  have e1t : (handleShowFocusPopup ctx1 d1 t1 p).2.2 = [t1 + 8000] := by
    rw [e1]
  have e2s : (handleShowFocusPopup ctx2 d2 t2
      (handleShowFocusPopup ctx1 d1 t1 p).1).1 =
      { isOpen := true
        notificationData := some (mkNotificationData ctx2 d2)
        isImageLoaded := false
        lastShownAppId :=
          if truthy (focusModeAppId d2.notificationId) then
            focusModeAppId d2.notificationId
          else (handleShowFocusPopup ctx1 d1 t1 p).1.lastShownAppId } := by
    rw [e2]
  have e2t : (handleShowFocusPopup ctx2 d2 t2
      (handleShowFocusPopup ctx1 d1 t1 p).1).2.2 = [t2 + 8000] := by
    rw [e2]
  refine ⟨?_, ?_, ht, ?_, ?_, ?_⟩ <;>
    simp [showStep_eq, e1t, e2s, e2t, fireTimerStep, autoDismissFire]

/-- C3 witness: show app `a` at 0 ms and app `b` at 5000 ms; the 8000 ms
timer from the first show fires while the second popup is displayed. -/
theorem c3_stale_timer_witness :
    (showStep ⟨none, none⟩ ⟨"B", "b", "focus-mode-b-2", none, none, none⟩ 5000
        ((showStep ⟨none, none⟩ ⟨"A", "a", "focus-mode-a-1", none, none, none⟩
          0 ⟨initialState, []⟩).1)).1.pendingTimers = [0 + 8000, 5000 + 8000] ∧
    (showStep ⟨none, none⟩ ⟨"B", "b", "focus-mode-b-2", none, none, none⟩ 5000
        ((showStep ⟨none, none⟩ ⟨"A", "a", "focus-mode-a-1", none, none, none⟩
          0 ⟨initialState, []⟩).1)).1.popup.notificationData =
      some (mkNotificationData ⟨none, none⟩
        ⟨"B", "b", "focus-mode-b-2", none, none, none⟩) ∧
    5000 < 0 + 8000 ∧
    (fireTimerStep (showStep ⟨none, none⟩
        ⟨"B", "b", "focus-mode-b-2", none, none, none⟩ 5000
        ((showStep ⟨none, none⟩ ⟨"A", "a", "focus-mode-a-1", none, none, none⟩
          0 ⟨initialState, []⟩).1)).1).1.popup.isOpen = false ∧
    (fireTimerStep (showStep ⟨none, none⟩
        ⟨"B", "b", "focus-mode-b-2", none, none, none⟩ 5000
        ((showStep ⟨none, none⟩ ⟨"A", "a", "focus-mode-a-1", none, none, none⟩
          0 ⟨initialState, []⟩).1)).1).1.popup.notificationData =
      some (mkNotificationData ⟨none, none⟩
        ⟨"B", "b", "focus-mode-b-2", none, none, none⟩) ∧
    (fireTimerStep (showStep ⟨none, none⟩
        ⟨"B", "b", "focus-mode-b-2", none, none, none⟩ 5000
        ((showStep ⟨none, none⟩ ⟨"A", "a", "focus-mode-a-1", none, none, none⟩
          0 ⟨initialState, []⟩).1)).1).1.pendingTimers = [5000 + 8000] :=
  c3_stale_timer_premature_dismiss ⟨none, none⟩ ⟨none, none⟩
    ⟨"A", "a", "focus-mode-a-1", none, none, none⟩
    ⟨"B", "b", "focus-mode-b-2", none, none, none⟩ 0 5000 initialState
    "a" "b" (by decide) (by decide) (by decide) (by decide) (by decide)
    (by decide) (by decide)

/-- C5: for an open popup with data, the motivational quote block is
rendered exactly when `customText` is present and, after removing the fixed
system message and trimming, non-empty; and the quote then equals that
removed-and-trimmed string. -/
theorem c5_motivational_quote (ctx : FocusContext) (s : PopupState)
    (nd : NotificationData) (hnd : s.notificationData = some nd)
    (hop : s.isOpen = true) :
    (ctx.customText = none →
      render ctx s =
        some ⟨displayImage ctx nd, nd.title, bodyText nd, none⟩) ∧
    (∀ t, ctx.customText = some t →
      jsTrim (jsReplaceFirst t systemMessage "") = "" →
      render ctx s =
        some ⟨displayImage ctx nd, nd.title, bodyText nd, none⟩) ∧
    (∀ t, ctx.customText = some t →
      jsTrim (jsReplaceFirst t systemMessage "") ≠ "" →
      render ctx s =
        some ⟨displayImage ctx nd, nd.title, bodyText nd,
          some (jsTrim (jsReplaceFirst t systemMessage ""))⟩) := by
  refine ⟨?_, ?_, ?_⟩
  · intro hct
    simp [render, hnd, hop, motivationalText, hct]
  · intro t hct htrim
    by_cases hc : t ≠ "" ∧ t ≠ systemMessage <;>
      simp [render, hnd, hop, motivationalText, hct, hc, htrim]
  · intro t hct htrim
    have ht1 : t ≠ "" := by rintro rfl; exact htrim (by decide)
    have ht2 : t ≠ systemMessage := by rintro rfl; exact htrim (by decide)
    simp [render, hnd, hop, motivationalText, hct, ht1, ht2, htrim]

/-- C5 witness: custom text `Stay focused!` is rendered as the quote. -/
theorem c5_motivational_quote_witness :
    render ⟨none, some "Stay focused!"⟩
        ⟨true, some ⟨"T", "B", "n", none, none⟩, true, none⟩ =
      some ⟨none, "T", "B", some "Stay focused!"⟩ :=
  (c5_motivational_quote ⟨none, some "Stay focused!"⟩
    ⟨true, some ⟨"T", "B", "n", none, none⟩, true, none⟩
    ⟨"T", "B", "n", none, none⟩ rfl rfl).2.2 "Stay focused!" rfl (by decide)

/-- C10: no operation ever clears `notificationData`: once it holds a
record, it stays non-`none` across show signals, dismiss signals, user
dismissal, timer firings and image callbacks. -/
theorem c10_notification_data_persistent (op : Op) (sys : SysState)
    (nd : NotificationData) (h : sys.popup.notificationData = some nd) :
    ((stepOp op sys).1.popup.notificationData).isSome = true := by
  cases op with
  | showSignal ctx d now =>
    by_cases hc : truthy (focusModeAppId d.notificationId) = true ∧
        focusModeAppId d.notificationId = sys.popup.lastShownAppId
    · simp [stepOp, showStep, show_suppressed _ _ _ _ hc, h]
    · simp [stepOp, showStep, show_not_suppressed _ _ _ _ hc]
  | dismissedSignal id =>
    simp only [stepOp, handleNotificationDismissed, h]
    split <;> simp [h]
  | userDismiss =>
    simp [stepOp, handleDismiss, h]
  | timerFire =>
    cases hpt : sys.pendingTimers <;>
      simp [stepOp, fireTimerStep, hpt, autoDismissFire, h]
  | imageLoad =>
    simp [stepOp, handleImageLoad, h]
  | imageError =>
    simp [stepOp, handleImageError, h]

/-- C10 witness: the timer firing keeps the stored data. -/
theorem c10_notification_data_persistent_witness :
    ((stepOp Op.timerFire
        ⟨⟨true, some ⟨"T", "B", "n", none, none⟩, false, none⟩,
          [8000]⟩).1.popup.notificationData).isSome = true :=
  c10_notification_data_persistent Op.timerFire
    ⟨⟨true, some ⟨"T", "B", "n", none, none⟩, false, none⟩, [8000]⟩
    ⟨"T", "B", "n", none, none⟩ rfl

end RichMediaPopup
